import Mathlib

/-!
Shallow embedding of the `BucketedTimeSeries` rolling-window controller from
`src/bucketedTimeSeries.go`, together with theorems settling the behavioural
claims about it.

Modelling conventions:
* Go machine integers become `Nat`; reductions modulo `2 ^ w` are written
  explicitly at the places where overflow can actually occur
  (`count_++` in `Put`, `position + 1` in `SetDataBlock`).
* The collaborators (`Series`, `BucketStorage`) are not part of `src/`; they
  are modelled from the spec, at the interface boundary the core consumes.
* Mutating Go methods become functions from the receiver state to a result
  record that carries the returned error (if any), the post state, and a
  trace of the Block Store calls that were issued, so that claims about
  "no store call is made" are expressible.
-/

namespace Tsdb

/-- One timestamp/value sample (Go `pb.TimeValuePair`).  The value is carried
opaquely by the controller — it is never inspected arithmetically — so the
`float64` payload is embedded as an `Int` stand-in. -/
structure DataPoint where
  timestamp : Int
  value : Int
deriving DecidableEq

/-- Modelled from the spec: the Block Store's reserved block identifier
sentinel meaning "no data" (constant `INVALID_ID`, defined outside `src/`);
its concrete value is irrelevant, only that it is a fixed reserved `uint64`. -/
def INVALID_ID : Nat := 2 ^ 64 - 1

/-- Modelled from the spec: the constant default category tag of a fresh
stream (constant `DEFAULT_CATEGORY`, defined outside `src/`). -/
def DEFAULT_CATEGORY : Nat := 0

/-- Modelled from the spec: the Compressed Point Stream collaborator (Go type
`Series`, implemented outside `src/`).  `data` is the logical content of the
delta-encoded byte stream `Bs.Stream`; `ExtraData` is the category tag. -/
structure Series where
  data : List DataPoint
  ExtraData : Nat
deriving DecidableEq

/-- Modelled from the spec: `Series.Reset` clears the stream's content; the
category tag is carried forward across rotations (the spec's data model says
the category is "carried forward across rotations as part of the stream's
reset state", and `BucketedTimeSeries.Reset` re-assigns `ExtraData` to the
default explicitly after resetting the stream). -/
def Series.Reset (s : Series) : Series :=
  { s with data := [] }

/-- Modelled from the spec: `Series.Append` validates the point against the
minimum-timestamp-delta policy (a configured lower bound on spacing between
consecutive points in the same bucket) and appends it; on validation failure
the stream is unchanged and an error is returned. -/
def Series.Append (s : Series) (t v minDelta : Int) : Except Unit Series :=
  match s.data.getLast? with
  | none => .ok { s with data := s.data ++ [⟨t, v⟩] }
  | some last =>
      if t - last.timestamp < minDelta then .error ()
      else .ok { s with data := s.data ++ [⟨t, v⟩] }

/-- Modelled from the spec: `Series.ReadData` reads out the stream's current
raw content. -/
def Series.ReadData (s : Series) : List DataPoint :=
  s.data

/-- A record of one `BucketStorage.Store` invocation issued by the core. -/
structure StoreCall where
  bucket : Nat
  data : List DataPoint
  count : Nat
  timeSeriesId : Nat
deriving DecidableEq

/-- Modelled from the spec: the Block Store collaborator (Go type
`BucketStorage`, implemented outside `src/`): a bucket capacity
(`NumBuckets`, a `uint8`), a `Store` primitive producing a block identifier,
and a `Fetch` primitive resolving one back to bytes and a point count. -/
structure BucketStorage where
  numBuckets : Nat
  store : Nat → List DataPoint → Nat → Nat → Except Unit Nat
  fetch : Nat → Nat → Except Unit (List DataPoint × Nat)

/-- Errors returned by the controller's mutating operations. -/
inductive TsdbError where
  | invalidBucket
  | storeError
  | appendError
deriving DecidableEq

/-- The `BucketedTimeSeries` state (`src/bucketedTimeSeries.go`, lines 12-28):
the active stream, the active point count (`uint16`), the currently active
bucket (`uint32`, with `0` as the "never opened" sentinel), the saturating
recency counter (`uint8`), and the circular array of historical block
identifiers. -/
structure BucketedTimeSeries where
  stream_ : Series
  count_ : Nat
  current_ : Nat
  queriedBucketsAgo_ : Nat
  blocks_ : List Nat
deriving DecidableEq

/-- `NewBucketedTimeSeries` (Go zero value with a fresh stream). -/
def NewBucketedTimeSeries : BucketedTimeSeries :=
  { stream_ := { data := [], ExtraData := 0 }
    count_ := 0
    current_ := 0
    queriedBucketsAgo_ := 0
    blocks_ := [] }

/-- `Reset(n)`: recency to the `uint8` maximum, current bucket to the
sentinel `0`, `n` historical slots all holding the invalid sentinel, empty
active stream with the default category.  (The Go method overwrites every
field of the receiver, so the result does not depend on the prior state.) -/
def Reset (n : Nat) (_b : BucketedTimeSeries) : BucketedTimeSeries :=
  { queriedBucketsAgo_ := 255
    current_ := 0
    blocks_ := List.replicate n INVALID_ID
    count_ := 0
    stream_ := { data := [], ExtraData := DEFAULT_CATEGORY } }

/-- Result of a mutating operation: the returned error (if any), the state of
the receiver after the call, and the Block Store `Store` calls issued. -/
structure StepResult where
  ret : Except TsdbError Unit
  state : BucketedTimeSeries
  calls : List StoreCall

/-- The body of one iteration of `open`'s rotation loop after the block
identifier for the closing bucket is known (lines 78-87): write the
identifier into slot `current_ mod NumBuckets`, reset the active count and
stream, advance `current_` by one, and bump the recency counter unless it is
saturated at the `uint8` maximum. -/
def rotAdvance (storage : BucketStorage) (blockId : Nat)
    (b : BucketedTimeSeries) : BucketedTimeSeries :=
  { b with
    blocks_ := b.blocks_.set (b.current_ % storage.numBuckets) blockId
    count_ := 0
    stream_ := b.stream_.Reset
    current_ := b.current_ + 1
    queriedBucketsAgo_ :=
      if b.queriedBucketsAgo_ < 255 then b.queriedBucketsAgo_ + 1
      else b.queriedBucketsAgo_ }

/-- The rotation loop of `open` (lines 67-88).  The Go loop condition is
`current_ != next`; every caller invokes it with `current_ <= next` (`Put`
and `SetCurrentBucket` guard with a strict comparison), in which regime the
condition is equivalent to `current_ < next`, which is how it is embedded.
On a `Store` failure the loop aborts, returning the receiver as already
partially advanced. -/
def openLoop (storage : BucketStorage) (next timeSeriesId : Nat)
    (b : BucketedTimeSeries) : StepResult :=
  if h : b.current_ < next then
    if 0 < b.count_ then
      match storage.store b.current_ b.stream_.data b.count_ timeSeriesId with
      | .error _ =>
          ⟨.error .storeError, b,
           [⟨b.current_, b.stream_.data, b.count_, timeSeriesId⟩]⟩
      | .ok blockId =>
          let r := openLoop storage next timeSeriesId (rotAdvance storage blockId b)
          ⟨r.ret, r.state,
           ⟨b.current_, b.stream_.data, b.count_, timeSeriesId⟩ :: r.calls⟩
    else
      openLoop storage next timeSeriesId (rotAdvance storage INVALID_ID b)
  else ⟨.ok (), b, []⟩
termination_by next - b.current_
decreasing_by
  all_goals simp [rotAdvance]; omega

/-- `open` (lines 56-90; renamed, `open` is reserved in Lean): if
`current_` is the sentinel `0`, skip directly to `next`; otherwise run the
rotation loop. -/
def openBucket (storage : BucketStorage) (next timeSeriesId : Nat)
    (b : BucketedTimeSeries) : StepResult :=
  if b.current_ = 0 then ⟨.ok (), { b with current_ := next }, []⟩
  else openLoop storage next timeSeriesId b

/-- `Put` (lines 96-124).  `minTimestampDelta` stands for the global
configuration value `TSDBConf.MinTimestampDelta` the Go code reads. -/
def Put (storage : BucketStorage) (minTimestampDelta : Int)
    (i timeSeriesId : Nat) (dp : DataPoint) (category : Option Nat)
    (b : BucketedTimeSeries) : StepResult :=
  if i < b.current_ then ⟨.error .invalidBucket, b, []⟩
  else
    let r := if b.current_ < i then openBucket storage i timeSeriesId b
             else ⟨.ok (), b, []⟩
    match r.ret with
    | .error _ => r
    | .ok _ =>
      match r.state.stream_.Append dp.timestamp dp.value minTimestampDelta with
      | .error _ => ⟨.error .appendError, r.state, r.calls⟩
      | .ok st =>
        let st2 := match category with
          | some c => { st with ExtraData := c }
          | none => st
        ⟨.ok (),
         { r.state with stream_ := st2, count_ := (r.state.count_ + 1) % 65536 },
         r.calls⟩

/-- One historical or live block returned by `Get` (Go `TimeSeriesBlock`). -/
structure TimeSeriesBlock where
  Data : List DataPoint
  Count : Nat
deriving DecidableEq

/-- Result of a `Get` call: the returned value (the Go method also returns an
`error`, so the return is an `Except`), the post state of the receiver, and
the bucket numbers for which a Block Store `Fetch` was issued. -/
structure GetResult where
  ret : Except TsdbError (List TimeSeriesBlock)
  state : BucketedTimeSeries
  fetched : List Nat

/-- The clamp `Get` applies to `end`: `min end (current_ - 1)`, or
`min end 0` while `current_` is still the sentinel (lines 137-141). -/
def clampEnd (b : BucketedTimeSeries) (end_ : Nat) : Nat :=
  if 1 ≤ b.current_ then min end_ (b.current_ - 1) else min end_ 0

/-- The clamp `Get` applies to `begin`: `max begin (current_ - NumBuckets)`
when at least `NumBuckets` buckets have been opened, else `max begin 0`
(lines 143-147). -/
def clampBegin (storage : BucketStorage) (b : BucketedTimeSeries)
    (begin_ : Nat) : Nat :=
  if storage.numBuckets ≤ b.current_ then
    max begin_ (b.current_ - storage.numBuckets)
  else max begin_ 0

/-- The read loop of `Get` (lines 150-162): for each bucket number from `i`
to `e` inclusive, fetch its slot's identifier; append the block on success
and silently skip it on error. -/
def getLoop (storage : BucketStorage) (b : BucketedTimeSeries) (e : Nat)
    (i : Nat) (out : List TimeSeriesBlock) (fetched : List Nat) :
    List TimeSeriesBlock × List Nat :=
  if h : i ≤ e then
    match storage.fetch i (b.blocks_.getD (i % storage.numBuckets) INVALID_ID) with
    | .ok dc => getLoop storage b e (i + 1) (out ++ [⟨dc.1, dc.2⟩]) (fetched ++ [i])
    | .error _ => getLoop storage b e (i + 1) out (fetched ++ [i])
  else (out, fetched)
termination_by e + 1 - i

/-- `Get` (lines 127-172): remember whether the live bucket is in the
original range (`getCurrent`, computed before clamping), clamp `end` and
`begin` (`clampEnd`, `clampBegin`), run the read loop, and append the live
bucket's data exactly when `getCurrent` held.  The receiver is returned
unchanged: the method writes no field.  (Go's `MinUint32`/`MaxUint32`
helpers are `min`/`max`.) -/
def Get (storage : BucketStorage) (begin_ end_ : Nat)
    (b : BucketedTimeSeries) : GetResult :=
  if begin_ ≤ b.current_ ∧ end_ ≥ b.current_ then
    ⟨.ok ((getLoop storage b (clampEnd b end_) (clampBegin storage b begin_)
            [] []).1 ++ [⟨b.stream_.ReadData, b.count_⟩]),
     b,
     (getLoop storage b (clampEnd b end_) (clampBegin storage b begin_)
       [] []).2⟩
  else
    ⟨.ok (getLoop storage b (clampEnd b end_) (clampBegin storage b begin_)
            [] []).1,
     b,
     (getLoop storage b (clampEnd b end_) (clampBegin storage b begin_)
       [] []).2⟩

/-- `SetCurrentBucket` (lines 176-189): advance through `open` when behind
the target, otherwise a no-op. -/
def SetCurrentBucket (storage : BucketStorage)
    (currentBucket timeSeriesId : Nat) (b : BucketedTimeSeries) : StepResult :=
  if b.current_ < currentBucket then
    openBucket storage currentBucket timeSeriesId b
  else ⟨.ok (), b, []⟩

/-- `SetQueried` (lines 192-194). -/
def SetQueried (b : BucketedTimeSeries) : BucketedTimeSeries :=
  { b with queriedBucketsAgo_ := 0 }

/-- `SetDataBlock` (lines 196-206).  `position` is a `uint32`, so the Go
assignment `current_ = position + 1` wraps modulo `2 ^ 32`; the slot write
happens unconditionally. -/
def SetDataBlock (position numBuckets id : Nat)
    (b : BucketedTimeSeries) : BucketedTimeSeries :=
  let b' := if position ≥ b.current_ then
      { b with current_ := (position + 1) % 2 ^ 32
               count_ := 0
               stream_ := b.stream_.Reset }
    else b
  { b' with blocks_ := b'.blocks_.set (position % numBuckets) id }

/-- `HasDataPoints` (lines 209-223). -/
def HasDataPoints (numBuckets : Nat) (b : BucketedTimeSeries) : Bool :=
  if 0 < b.count_ then true
  else (List.range numBuckets).any
    (fun i => b.blocks_.getD i INVALID_ID ≠ INVALID_ID)

/-- `GetQueriedBucketsAgo` (lines 227-229). -/
def GetQueriedBucketsAgo (b : BucketedTimeSeries) : Nat :=
  b.queriedBucketsAgo_

/-- `GetCategory` (lines 232-236). -/
def GetCategory (b : BucketedTimeSeries) : Nat :=
  b.stream_.ExtraData

/-- `SetCategory` (lines 239-243). -/
def SetCategory (category : Nat) (b : BucketedTimeSeries) : BucketedTimeSeries :=
  { b with stream_ := { b.stream_ with ExtraData := category } }

/-- The per-bucket fetch performed by `Get`'s read loop, as an optional
result: `some` block on a successful Block Store fetch of the bucket's slot,
`none` on a fetch failure or gap. -/
def fetchBlock (storage : BucketStorage) (b : BucketedTimeSeries)
    (j : Nat) : Option TimeSeriesBlock :=
  match storage.fetch j (b.blocks_.getD (j % storage.numBuckets) INVALID_ID) with
  | .ok dc => some ⟨dc.1, dc.2⟩
  | .error _ => none

/-- One write-path call, for stating properties of call sequences. -/
inductive WriteOp where
  | put (i : Nat) (dp : DataPoint) (category : Option Nat)
  | setCurrent (i : Nat)

/-- The bucket number a write-path call passes to the controller. -/
def WriteOp.bucket : WriteOp → Nat
  | .put i _ _ => i
  | .setCurrent i => i

/-- Apply one write-path call to a state, keeping the post state whether the
call succeeded or failed. -/
def applyWrite (storage : BucketStorage) (minDelta : Int) (tsid : Nat)
    (b : BucketedTimeSeries) : WriteOp → BucketedTimeSeries
  | .put i dp cat => (Put storage minDelta i tsid dp cat b).state
  | .setCurrent i => (SetCurrentBucket storage i tsid b).state

/-- Run a sequence of write-path calls from a state. -/
def runWrites (storage : BucketStorage) (minDelta : Int) (tsid : Nat)
    (ops : List WriteOp) (b : BucketedTimeSeries) : BucketedTimeSeries :=
  ops.foldl (applyWrite storage minDelta tsid) b

/-! Concrete instances used by witnesses and counterexamples. -/

/-- A Block Store with capacity three whose `Store` always succeeds and whose
`Fetch` succeeds exactly on non-sentinel identifiers. -/
def stW : BucketStorage :=
  ⟨3, fun _ _ _ _ => .ok 42,
   fun _ id => if id = INVALID_ID then .error () else .ok ([], 1)⟩

/-- A Block Store with capacity three whose primitives always fail. -/
def stErr : BucketStorage :=
  ⟨3, fun _ _ _ _ => .error (), fun _ _ => .error ()⟩

/-- A freshly reset series with three historical slots. -/
def bSent : BucketedTimeSeries := Reset 3 NewBucketedTimeSeries

/-- A series at bucket 2 with an empty active bucket and recency 3. -/
def bAt2cnt0 : BucketedTimeSeries :=
  { stream_ := { data := [], ExtraData := 0 }
    count_ := 0
    current_ := 2
    queriedBucketsAgo_ := 3
    blocks_ := List.replicate 3 INVALID_ID }

/-- A series at bucket 2 with one buffered point and recency 3. -/
def bAt2cnt1 : BucketedTimeSeries :=
  { stream_ := { data := [⟨10, 1⟩], ExtraData := 0 }
    count_ := 1
    current_ := 2
    queriedBucketsAgo_ := 3
    blocks_ := List.replicate 3 INVALID_ID }

/-- A series at bucket 5 with an empty active bucket and recency 5. -/
def bAt5 : BucketedTimeSeries :=
  { stream_ := { data := [], ExtraData := 0 }
    count_ := 0
    current_ := 5
    queriedBucketsAgo_ := 5
    blocks_ := List.replicate 3 INVALID_ID }

/-- A series at bucket 4 (equal to 1 + capacity 3) with one buffered point. -/
def bC7 : BucketedTimeSeries :=
  { stream_ := { data := [⟨10, 1⟩], ExtraData := 0 }
    count_ := 1
    current_ := 4
    queriedBucketsAgo_ := 0
    blocks_ := List.replicate 3 INVALID_ID }

/-! Helper lemmas. -/

theorem rotAdvance_current (storage : BucketStorage) (id : Nat)
    (b : BucketedTimeSeries) :
    (rotAdvance storage id b).current_ = b.current_ + 1 := rfl

theorem rotAdvance_count (storage : BucketStorage) (id : Nat)
    (b : BucketedTimeSeries) :
    (rotAdvance storage id b).count_ = 0 := rfl

theorem rotAdvance_blocks (storage : BucketStorage) (id : Nat)
    (b : BucketedTimeSeries) :
    (rotAdvance storage id b).blocks_ =
      b.blocks_.set (b.current_ % storage.numBuckets) id := rfl

theorem openLoop_stop (storage : BucketStorage) (next tsid : Nat)
    (b : BucketedTimeSeries) (h : ¬ b.current_ < next) :
    openLoop storage next tsid b = ⟨.ok (), b, []⟩ := by
  rw [openLoop]
  simp [h]

theorem openLoop_step_empty (storage : BucketStorage) (next tsid : Nat)
    (b : BucketedTimeSeries) (h : b.current_ < next) (hc : b.count_ = 0) :
    openLoop storage next tsid b =
      openLoop storage next tsid (rotAdvance storage INVALID_ID b) := by
  rw [openLoop]
  simp [h, hc]

theorem openLoop_step_ok (storage : BucketStorage) (next tsid id : Nat)
    (b : BucketedTimeSeries) (h : b.current_ < next) (hc : 0 < b.count_)
    (hst : storage.store b.current_ b.stream_.data b.count_ tsid = .ok id) :
    openLoop storage next tsid b =
      ⟨(openLoop storage next tsid (rotAdvance storage id b)).ret,
       (openLoop storage next tsid (rotAdvance storage id b)).state,
       ⟨b.current_, b.stream_.data, b.count_, tsid⟩ ::
         (openLoop storage next tsid (rotAdvance storage id b)).calls⟩ := by
  rw [openLoop]
  simp [h, hc, hst]

theorem openLoop_step_err (storage : BucketStorage) (next tsid : Nat)
    (b : BucketedTimeSeries) (h : b.current_ < next) (hc : 0 < b.count_)
    (hst : storage.store b.current_ b.stream_.data b.count_ tsid = .error ()) :
    openLoop storage next tsid b =
      ⟨.error .storeError, b,
       [⟨b.current_, b.stream_.data, b.count_, tsid⟩]⟩ := by
  rw [openLoop]
  simp [h, hc, hst]

theorem getD_set_self (l : List Nat) (i a : Nat) (h : i < l.length) :
    (l.set i a).getD i 0 = a := by
  simp [List.getD_eq_getElem?_getD, List.getElem?_set_self h]

theorem getD_set_ne (l : List Nat) (i j a : Nat) (h : i ≠ j) :
    (l.set i a).getD j 0 = l.getD j 0 := by
  simp [List.getD_eq_getElem?_getD, List.getElem?_set_ne h]

theorem openLoop_gap (storage : BucketStorage) (tsid : Nat) :
    ∀ (k : Nat) (b : BucketedTimeSeries), b.count_ = 0 →
      (openLoop storage (b.current_ + k) tsid b).ret = .ok () ∧
      (openLoop storage (b.current_ + k) tsid b).calls = [] ∧
      (openLoop storage (b.current_ + k) tsid b).state.current_ = b.current_ + k ∧
      (openLoop storage (b.current_ + k) tsid b).state.count_ = 0 ∧
      (openLoop storage (b.current_ + k) tsid b).state.blocks_.length =
        b.blocks_.length ∧
      (∀ idx, (openLoop storage (b.current_ + k) tsid b).state.blocks_.getD idx 0 =
                b.blocks_.getD idx 0 ∨
              (openLoop storage (b.current_ + k) tsid b).state.blocks_.getD idx 0 =
                INVALID_ID) ∧
      (∀ j, j < k → (b.current_ + j) % storage.numBuckets < b.blocks_.length →
        (openLoop storage (b.current_ + k) tsid b).state.blocks_.getD
          ((b.current_ + j) % storage.numBuckets) 0 = INVALID_ID) := by
  intro k
  induction k with
  | zero =>
      intro b hc
      rw [openLoop_stop storage _ tsid b (by omega)]
      simp [hc]
  | succ k ih =>
      intro b hc
      have hlt : b.current_ < b.current_ + (k + 1) := by omega
      rw [openLoop_step_empty storage _ tsid b hlt hc]
      have hcur : (rotAdvance storage INVALID_ID b).current_ = b.current_ + 1 := rfl
      have hkey : b.current_ + (k + 1) =
          (rotAdvance storage INVALID_ID b).current_ + k := by
        rw [hcur]
        omega
      rw [hkey]
      obtain ⟨h1, h2, h3, h4, h5, h6, h7⟩ := ih (rotAdvance storage INVALID_ID b) rfl
      have hlen : (rotAdvance storage INVALID_ID b).blocks_.length =
          b.blocks_.length := by
        rw [rotAdvance_blocks]
        exact List.length_set b.blocks_ _ _
      refine ⟨h1, h2, ?_, h4, ?_, ?_, ?_⟩
      · rw [h3, hcur]
      · rw [h5, hlen]
      · intro idx
        rcases h6 idx with h | h
        · rw [h, rotAdvance_blocks]
          by_cases he : b.current_ % storage.numBuckets = idx
          · subst he
            by_cases hin : b.current_ % storage.numBuckets < b.blocks_.length
            · right
              exact getD_set_self _ _ _ hin
            · left
              rw [List.set_eq_of_length_le (by omega)]
          · left
            exact getD_set_ne _ _ _ _ he
        · right
          exact h
      · intro j hj hjlen
        rcases Nat.eq_zero_or_pos j with rfl | hpos
        · rcases h6 (b.current_ % storage.numBuckets) with h | h
          · rw [Nat.add_zero] at hjlen ⊢
            rw [h, rotAdvance_blocks]
            exact getD_set_self _ _ _ hjlen
          · rw [Nat.add_zero] at hjlen ⊢
            exact h
        · have hsh : b.current_ + j =
              (rotAdvance storage INVALID_ID b).current_ + (j - 1) := by
            rw [hcur]
            omega
          rw [hsh]
          exact h7 (j - 1) (by omega) (by rw [hlen, ← hsh]; exact hjlen)

theorem openLoop_mono (storage : BucketStorage) (next tsid : Nat) :
    ∀ (m : Nat) (b : BucketedTimeSeries), next - b.current_ ≤ m →
      b.current_ ≤ (openLoop storage next tsid b).state.current_ ∧
      (openLoop storage next tsid b).state.current_ ≤ max b.current_ next := by
  intro m
  induction m with
  | zero =>
      intro b hm
      rw [openLoop_stop storage next tsid b (by omega)]
      simp
  | succ m ih =>
      intro b hm
      by_cases h : b.current_ < next
      · by_cases hc : b.count_ = 0
        · rw [openLoop_step_empty storage next tsid b h hc]
          have := ih (rotAdvance storage INVALID_ID b)
            (by rw [rotAdvance_current]; omega)
          rw [rotAdvance_current] at this
          omega
        · cases hst : storage.store b.current_ b.stream_.data b.count_ tsid with
          | error u =>
              cases u
              rw [openLoop_step_err storage next tsid b h (by omega) hst]
              simp
          | ok id =>
              rw [openLoop_step_ok storage next tsid id b h (by omega) hst]
              have := ih (rotAdvance storage id b)
                (by rw [rotAdvance_current]; omega)
              rw [rotAdvance_current] at this
              dsimp only
              omega
      · rw [openLoop_stop storage next tsid b h]
        dsimp only
        omega

theorem openLoop_queried (storage : BucketStorage) (tsid : Nat)
    (hst : ∀ c d cnt t, ∃ id, storage.store c d cnt t = .ok id) :
    ∀ (k : Nat) (b : BucketedTimeSeries), b.queriedBucketsAgo_ ≤ 255 →
      (openLoop storage (b.current_ + k) tsid b).ret = .ok () ∧
      (openLoop storage (b.current_ + k) tsid b).state.queriedBucketsAgo_ =
        min (b.queriedBucketsAgo_ + k) 255 := by
  intro k
  induction k with
  | zero =>
      intro b hq
      rw [openLoop_stop storage _ tsid b (by omega)]
      dsimp only
      constructor
      · rfl
      · omega
  | succ k ih =>
      intro b hq
      have hlt : b.current_ < b.current_ + (k + 1) := by omega
      have hqrot : ∀ id, (rotAdvance storage id b).queriedBucketsAgo_ =
          if b.queriedBucketsAgo_ < 255 then b.queriedBucketsAgo_ + 1
          else b.queriedBucketsAgo_ := fun _ => rfl
      by_cases hc : b.count_ = 0
      · rw [openLoop_step_empty storage _ tsid b hlt hc]
        have hkey : b.current_ + (k + 1) =
            (rotAdvance storage INVALID_ID b).current_ + k := by
          rw [rotAdvance_current]
          omega
        rw [hkey]
        obtain ⟨h1, h2⟩ := ih (rotAdvance storage INVALID_ID b)
          (by rw [hqrot]; split <;> omega)
        refine ⟨h1, ?_⟩
        rw [h2, hqrot]
        split <;> omega
      · obtain ⟨id, hsid⟩ := hst b.current_ b.stream_.data b.count_ tsid
        rw [openLoop_step_ok storage _ tsid id b hlt (by omega) hsid]
        have hkey : b.current_ + (k + 1) =
            (rotAdvance storage id b).current_ + k := by
          rw [rotAdvance_current]
          omega
        rw [hkey]
        obtain ⟨h1, h2⟩ := ih (rotAdvance storage id b)
          (by rw [hqrot]; split <;> omega)
        dsimp only
        refine ⟨h1, ?_⟩
        rw [h2, hqrot]
        split <;> omega

theorem getLoop_spec (storage : BucketStorage) (b : BucketedTimeSeries)
    (e : Nat) :
    ∀ (m i : Nat) (out : List TimeSeriesBlock) (fetched : List Nat),
      e + 1 - i ≤ m →
      getLoop storage b e i out fetched =
        (out ++ (List.range' i (e + 1 - i)).filterMap (fetchBlock storage b),
         fetched ++ List.range' i (e + 1 - i)) := by
  intro m
  induction m with
  | zero =>
      intro i out fetched hm
      have h : ¬ i ≤ e := by omega
      have hz : e + 1 - i = 0 := by omega
      rw [getLoop, hz]
      simp [h]
  | succ m ih =>
      intro i out fetched hm
      by_cases h : i ≤ e
      · have hr : e + 1 - i = (e - i) + 1 := by omega
        have hr2 : e + 1 - (i + 1) = e - i := by omega
        rw [getLoop]
        cases hf : storage.fetch i
            (b.blocks_.getD (i % storage.numBuckets) INVALID_ID) with
        | ok dc =>
            have hfb : fetchBlock storage b i = some ⟨dc.1, dc.2⟩ := by
              unfold fetchBlock
              rw [hf]
            simp only [dif_pos h, hf]
            rw [ih (i + 1) _ _ (by omega), hr2, hr, List.range'_succ,
              List.filterMap_cons, hfb]
            simp
        | error u =>
            have hfb : fetchBlock storage b i = none := by
              unfold fetchBlock
              rw [hf]
            simp only [dif_pos h, hf]
            rw [ih (i + 1) _ _ (by omega), hr2, hr, List.range'_succ,
              List.filterMap_cons, hfb]
            simp
      · have hz : e + 1 - i = 0 := by omega
        rw [getLoop, hz]
        simp [h]

theorem Get_eq (storage : BucketStorage) (begin_ end_ : Nat)
    (b : BucketedTimeSeries) :
    Get storage begin_ end_ b =
      ⟨.ok ((List.range' (clampBegin storage b begin_)
              (clampEnd b end_ + 1 - clampBegin storage b begin_)).filterMap
                (fetchBlock storage b) ++
            (if begin_ ≤ b.current_ ∧ b.current_ ≤ end_ then
              [⟨b.stream_.ReadData, b.count_⟩] else [])),
       b,
       List.range' (clampBegin storage b begin_)
         (clampEnd b end_ + 1 - clampBegin storage b begin_)⟩ := by
  have h := getLoop_spec storage b (clampEnd b end_)
    (clampEnd b end_ + 1 - clampBegin storage b begin_)
    (clampBegin storage b begin_) [] [] le_rfl
  unfold Get
  rw [h]
  simp only [List.nil_append]
  split <;> simp_all [ge_iff_le]

theorem openLoop_current_le (storage : BucketStorage) (next tsid : Nat)
    (b : BucketedTimeSeries) :
    b.current_ ≤ (openLoop storage next tsid b).state.current_ ∧
    (openLoop storage next tsid b).state.current_ ≤ max b.current_ next :=
  openLoop_mono storage next tsid (next - b.current_) b le_rfl

theorem openBucket_current_le (storage : BucketStorage) (next tsid : Nat)
    (b : BucketedTimeSeries) :
    b.current_ ≤ (openBucket storage next tsid b).state.current_ ∧
    (openBucket storage next tsid b).state.current_ ≤ max b.current_ next := by
  unfold openBucket
  by_cases h : b.current_ = 0
  · simp [h]
  · simp only [h, if_false]
    exact openLoop_current_le storage next tsid b

theorem Put_current_le (storage : BucketStorage) (minDelta : Int)
    (i tsid : Nat) (dp : DataPoint) (cat : Option Nat)
    (b : BucketedTimeSeries) :
    b.current_ ≤ (Put storage minDelta i tsid dp cat b).state.current_ ∧
    (Put storage minDelta i tsid dp cat b).state.current_ ≤
      max b.current_ i := by
  unfold Put
  by_cases h1 : i < b.current_
  · simp [h1]
  · by_cases h2 : b.current_ < i
    · simp only [h1, if_false, h2, if_true]
      have hob := openBucket_current_le storage i tsid b
      cases hret : (openBucket storage i tsid b).ret with
      | error e =>
          simpa [hret] using hob
      | ok u =>
          simp only [hret]
          cases happ : (openBucket storage i tsid b).state.stream_.Append
              dp.timestamp dp.value minDelta with
          | error e => simpa [happ] using hob
          | ok st => cases cat <;> simpa [happ] using hob
    · simp only [h1, if_false, h2, if_false]
      cases happ : b.stream_.Append dp.timestamp dp.value minDelta with
      | error e =>
          simp [happ]
      | ok st =>
          cases cat <;> simp [happ]

theorem SetCurrentBucket_current_le (storage : BucketStorage)
    (target tsid : Nat) (b : BucketedTimeSeries) :
    b.current_ ≤ (SetCurrentBucket storage target tsid b).state.current_ ∧
    (SetCurrentBucket storage target tsid b).state.current_ ≤
      max b.current_ target := by
  unfold SetCurrentBucket
  by_cases h : b.current_ < target
  · simp only [h, if_true]
    exact openBucket_current_le storage target tsid b
  · simp [h]

theorem applyWrite_current_le (storage : BucketStorage) (minDelta : Int)
    (tsid : Nat) (b : BucketedTimeSeries) (op : WriteOp) :
    b.current_ ≤ (applyWrite storage minDelta tsid b op).current_ ∧
    (applyWrite storage minDelta tsid b op).current_ ≤
      max b.current_ (WriteOp.bucket op) := by
  cases op with
  | put i dp cat => exact Put_current_le storage minDelta i tsid dp cat b
  | setCurrent i => exact SetCurrentBucket_current_le storage i tsid b

theorem runWrites_current_bound (storage : BucketStorage) (minDelta : Int)
    (tsid : Nat) :
    ∀ (ops : List WriteOp) (b : BucketedTimeSeries) (M : Nat),
      b.current_ ≤ M → (∀ op ∈ ops, WriteOp.bucket op ≤ M) →
      b.current_ ≤ (runWrites storage minDelta tsid ops b).current_ ∧
      (runWrites storage minDelta tsid ops b).current_ ≤ M := by
  intro ops
  induction ops with
  | nil =>
      intro b M hb _
      exact ⟨le_rfl, hb⟩
  | cons op ops ih =>
      intro b M hb hops
      have hstep := applyWrite_current_le storage minDelta tsid b op
      have hbM : (applyWrite storage minDelta tsid b op).current_ ≤ M := by
        have := hops op (by simp)
        omega
      have hrest := ih (applyWrite storage minDelta tsid b op) M hbM
        (fun o ho => hops o (by simp [ho]))
      unfold runWrites at hrest ⊢
      rw [List.foldl_cons]
      constructor
      · exact le_trans hstep.1 hrest.1
      · exact hrest.2

theorem openBucket_ne_zero (storage : BucketStorage) (next tsid : Nat)
    (b : BucketedTimeSeries) (h : b.current_ ≠ 0) :
    openBucket storage next tsid b = openLoop storage next tsid b := by
  unfold openBucket
  simp [h]

/-! Claim theorems. -/

/-- C1: Rotation.  If `current_bucket` is the sentinel `0`, it jumps directly
to the target `i` with no flush and no slot write (the state changes only in
`current_`, and the store-call trace is empty).  Otherwise the loop advances
one bucket at a time until `current_bucket = i`: with `active_count > 0` the
step flushes the active stream to the Block Store, records the returned
identifier in slot `current_bucket mod capacity`, resets the stream and
count, and advances (aborting on a store error); with `active_count = 0` it
records the invalid sentinel identifier with no store call.  In particular
rotating forward across `k` buckets with zero writes leaves all `k`
corresponding slots holding the invalid sentinel, with no store call at
all. -/
theorem rotation_spec (storage : BucketStorage) (tsid i k id : Nat)
    (b : BucketedTimeSeries) :
    (b.current_ = 0 →
       openBucket storage i tsid b = ⟨.ok (), { b with current_ := i }, []⟩) ∧
    (0 < b.current_ → b.current_ < i → b.count_ = 0 →
       openBucket storage i tsid b =
         openBucket storage i tsid (rotAdvance storage INVALID_ID b)) ∧
    (0 < b.current_ → b.current_ < i → 0 < b.count_ →
       storage.store b.current_ b.stream_.data b.count_ tsid = .ok id →
       openBucket storage i tsid b =
         ⟨(openBucket storage i tsid (rotAdvance storage id b)).ret,
          (openBucket storage i tsid (rotAdvance storage id b)).state,
          ⟨b.current_, b.stream_.data, b.count_, tsid⟩ ::
            (openBucket storage i tsid (rotAdvance storage id b)).calls⟩) ∧
    (0 < b.current_ → b.current_ < i → 0 < b.count_ →
       storage.store b.current_ b.stream_.data b.count_ tsid = .error () →
       openBucket storage i tsid b =
         ⟨.error .storeError, b,
          [⟨b.current_, b.stream_.data, b.count_, tsid⟩]⟩) ∧
    (0 < b.current_ → b.count_ = 0 →
       (openBucket storage (b.current_ + k) tsid b).ret = .ok () ∧
       (openBucket storage (b.current_ + k) tsid b).calls = [] ∧
       ∀ j, j < k → (b.current_ + j) % storage.numBuckets < b.blocks_.length →
         (openBucket storage (b.current_ + k) tsid b).state.blocks_.getD
           ((b.current_ + j) % storage.numBuckets) 0 = INVALID_ID) := by
  refine ⟨?_, ?_, ?_, ?_, ?_⟩
  · intro h0
    unfold openBucket
    simp [h0]
  · intro h0 hlt hc
    rw [openBucket_ne_zero storage i tsid b (by omega),
      openBucket_ne_zero storage i tsid _ (by rw [rotAdvance_current]; omega)]
    exact openLoop_step_empty storage i tsid b hlt hc
  · intro h0 hlt hc hst
    rw [openBucket_ne_zero storage i tsid b (by omega),
      openBucket_ne_zero storage i tsid _ (by rw [rotAdvance_current]; omega)]
    exact openLoop_step_ok storage i tsid id b hlt hc hst
  · intro h0 hlt hc hst
    rw [openBucket_ne_zero storage i tsid b (by omega)]
    exact openLoop_step_err storage i tsid b hlt hc hst
  · intro h0 hc
    rw [openBucket_ne_zero storage _ tsid b (by omega)]
    obtain ⟨h1, h2, _, _, _, _, h7⟩ := openLoop_gap storage tsid k b hc
    exact ⟨h1, h2, h7⟩

/-- Witness for `rotation_spec`: each case instantiated at concrete inputs
with its hypotheses discharged. -/
theorem rotation_spec_witness :
    (openBucket stW 5 1 bSent = ⟨.ok (), { bSent with current_ := 5 }, []⟩) ∧
    (openBucket stW 4 1 bAt2cnt0 =
      openBucket stW 4 1 (rotAdvance stW INVALID_ID bAt2cnt0)) ∧
    (openBucket stW 4 1 bAt2cnt1 =
      ⟨(openBucket stW 4 1 (rotAdvance stW 42 bAt2cnt1)).ret,
       (openBucket stW 4 1 (rotAdvance stW 42 bAt2cnt1)).state,
       ⟨bAt2cnt1.current_, bAt2cnt1.stream_.data, bAt2cnt1.count_, 1⟩ ::
         (openBucket stW 4 1 (rotAdvance stW 42 bAt2cnt1)).calls⟩) ∧
    (openBucket stErr 4 1 bAt2cnt1 =
      ⟨.error .storeError, bAt2cnt1,
       [⟨bAt2cnt1.current_, bAt2cnt1.stream_.data, bAt2cnt1.count_, 1⟩]⟩) ∧
    ((openBucket stW (bAt2cnt0.current_ + 2) 1 bAt2cnt0).ret = .ok () ∧
     (openBucket stW (bAt2cnt0.current_ + 2) 1 bAt2cnt0).calls = [] ∧
     ∀ j, j < 2 → (bAt2cnt0.current_ + j) % stW.numBuckets <
         bAt2cnt0.blocks_.length →
       (openBucket stW (bAt2cnt0.current_ + 2) 1 bAt2cnt0).state.blocks_.getD
         ((bAt2cnt0.current_ + j) % stW.numBuckets) 0 = INVALID_ID) :=
  ⟨(rotation_spec stW 1 5 0 0 bSent).1 rfl,
   (rotation_spec stW 1 4 0 0 bAt2cnt0).2.1 (by decide) (by decide) rfl,
   (rotation_spec stW 1 4 0 42 bAt2cnt1).2.2.1 (by decide) (by decide)
     (by decide) rfl,
   (rotation_spec stErr 1 4 0 0 bAt2cnt1).2.2.2.1 (by decide) (by decide)
     (by decide) rfl,
   (rotation_spec stW 1 0 2 0 bAt2cnt0).2.2.2.2 (by decide) rfl⟩

/-- C2: a `put` whose bucket number is strictly below `current_bucket`
returns the "invalid bucket" error and leaves the whole state unchanged
(every field keeps its prior value), with no Block Store call issued. -/
theorem put_stale_rejected (storage : BucketStorage) (minDelta : Int)
    (i tsid : Nat) (dp : DataPoint) (cat : Option Nat)
    (b : BucketedTimeSeries) (h : i < b.current_) :
    Put storage minDelta i tsid dp cat b = ⟨.error .invalidBucket, b, []⟩ := by
  unfold Put
  simp [h]

/-- Witness for `put_stale_rejected` at bucket 3 against a series whose
current bucket is 5. -/
theorem put_stale_rejected_witness :
    3 < bAt5.current_ ∧
    Put stW 0 3 1 ⟨100, 7⟩ none bAt5 = ⟨.error .invalidBucket, bAt5, []⟩ :=
  ⟨by decide, put_stale_rejected stW 0 3 1 ⟨100, 7⟩ none bAt5 (by decide)⟩

/-- C7: for historical capacity `n`, buckets `b` and `b + n` map to the same
slot, and the rotation step that closes bucket `b + n` writes the identifier
obtained for `b + n` into that slot unconditionally — whatever the slot held
before (in particular bucket `b`'s earlier result) is overwritten. -/
theorem slot_reuse (storage : BucketStorage) (tsid bb id : Nat)
    (s : BucketedTimeSeries) (hn : 0 < storage.numBuckets)
    (hlen : s.blocks_.length = storage.numBuckets)
    (hcur : s.current_ = bb + storage.numBuckets) (hcnt : 0 < s.count_)
    (hst : storage.store s.current_ s.stream_.data s.count_ tsid = .ok id) :
    bb % storage.numBuckets = (bb + storage.numBuckets) % storage.numBuckets ∧
    (openBucket storage (s.current_ + 1) tsid s).state.blocks_.getD
      (bb % storage.numBuckets) 0 = id := by
  constructor
  · rw [Nat.add_mod_right]
  · rw [openBucket_ne_zero storage _ tsid s (by omega),
      openLoop_step_ok storage _ tsid id s (by omega) hcnt hst]
    dsimp only
    rw [openLoop_stop storage _ tsid _ (by rw [rotAdvance_current]; omega)]
    dsimp only
    rw [rotAdvance_blocks, hcur, Nat.add_mod_right]
    exact getD_set_self _ _ _ (by rw [hlen]; exact Nat.mod_lt bb hn)

/-- Witness for `slot_reuse` with capacity 3, bucket 1 and bucket 4 sharing
slot 1, and a store call returning identifier 42. -/
theorem slot_reuse_witness :
    bC7.current_ = 1 + stW.numBuckets ∧
    (1 % stW.numBuckets = (1 + stW.numBuckets) % stW.numBuckets ∧
     (openBucket stW (bC7.current_ + 1) 1 bC7).state.blocks_.getD
       (1 % stW.numBuckets) 0 = 42) :=
  ⟨by decide,
   slot_reuse stW 1 1 42 bC7 (by decide) (by decide) (by decide) (by decide)
     rfl⟩

/-- C10: `SetDataBlock(position, capacity, blockId)` with
`position < current_bucket` writes `blockId` into slot
`position mod capacity` unconditionally and changes nothing else:
`current_`, `count_`, the active stream, and the recency counter keep their
prior values, and the slot receives `blockId` regardless of what it held. -/
theorem setDataBlock_below_current_frame (position numBuckets id : Nat)
    (b : BucketedTimeSeries) (h : position < b.current_) :
    SetDataBlock position numBuckets id b =
      { b with blocks_ := b.blocks_.set (position % numBuckets) id } := by
  unfold SetDataBlock
  simp [Nat.not_le.mpr h]

/-- Witness for `setDataBlock_below_current_frame`: position 1 below current
bucket 5 writes slot 1 only. -/
theorem setDataBlock_below_current_frame_witness :
    1 < bAt5.current_ ∧
    SetDataBlock 1 3 9 bAt5 =
      { bAt5 with blocks_ := bAt5.blocks_.set (1 % 3) 9 } :=
  ⟨by decide, setDataBlock_below_current_frame 1 3 9 bAt5 (by decide)⟩

/-- C3 counterexample: `SetDataBlock` at the `uint32` maximum position
`2 ^ 32 - 1` assigns `current_ = position + 1`, which wraps to `0` and
strictly decreases `current_` (here from 5 to 0), refuting "current_bucket
is monotonically non-decreasing across every operation". -/
theorem setDataBlock_wrap_decreases_current :
    (SetDataBlock (2 ^ 32 - 1) 3 7 bAt5).current_ < bAt5.current_ := by
  decide

/-- C3 amended: `current_bucket` never decreases under `put`,
`set_current_bucket`, `get`, `set_queried`, `set_category`, and
`set_data_block` for every position whose successor fits in `uint32`
(the sole exception, position `2 ^ 32 - 1`, wraps `current_` to `0`); and
for any sequence of `put`/`set_current_bucket` calls whose bucket numbers
are bounded by `M`, `current_` stays bounded by `M` and never decreases. -/
theorem current_monotone_amended (storage : BucketStorage) (minDelta : Int)
    (i tsid position numBuckets id begin_ end_ c : Nat) (dp : DataPoint)
    (cat : Option Nat) (b : BucketedTimeSeries) (ops : List WriteOp)
    (M : Nat) :
    b.current_ ≤ (Put storage minDelta i tsid dp cat b).state.current_ ∧
    b.current_ ≤ (SetCurrentBucket storage i tsid b).state.current_ ∧
    (position + 1 < 2 ^ 32 →
      b.current_ ≤ (SetDataBlock position numBuckets id b).current_) ∧
    (Get storage begin_ end_ b).state = b ∧
    (SetQueried b).current_ = b.current_ ∧
    (SetCategory c b).current_ = b.current_ ∧
    (b.current_ ≤ M → (∀ op ∈ ops, WriteOp.bucket op ≤ M) →
      b.current_ ≤ (runWrites storage minDelta tsid ops b).current_ ∧
      (runWrites storage minDelta tsid ops b).current_ ≤ M) := by
  refine ⟨(Put_current_le storage minDelta i tsid dp cat b).1,
    (SetCurrentBucket_current_le storage i tsid b).1, ?_, ?_, rfl, rfl, ?_⟩
  · intro hpos
    unfold SetDataBlock
    by_cases hge : position ≥ b.current_
    · simp only [hge, if_true]
      show b.current_ ≤ (position + 1) % 2 ^ 32
      rw [Nat.mod_eq_of_lt hpos]
      omega
    · simp [hge]
  · rw [Get_eq]
  · intro hb hops
    exact runWrites_current_bound storage minDelta tsid ops b M hb hops

/-- Witness for `current_monotone_amended` at a series on bucket 5, with a
two-call write sequence bounded by 9. -/
theorem current_monotone_amended_witness :
    (3 + 1 < 2 ^ 32 ∧ bAt5.current_ ≤ 9 ∧
     (∀ op ∈ [WriteOp.put 7 ⟨100, 7⟩ none, WriteOp.setCurrent 9],
       WriteOp.bucket op ≤ 9)) ∧
    (bAt5.current_ ≤ (Put stW 0 7 1 ⟨100, 7⟩ none bAt5).state.current_ ∧
     bAt5.current_ ≤ (SetCurrentBucket stW 7 1 bAt5).state.current_ ∧
     bAt5.current_ ≤ (SetDataBlock 3 3 9 bAt5).current_ ∧
     (Get stW 0 9 bAt5).state = bAt5 ∧
     bAt5.current_ ≤
       (runWrites stW 0 1 [WriteOp.put 7 ⟨100, 7⟩ none, WriteOp.setCurrent 9]
         bAt5).current_ ∧
     (runWrites stW 0 1 [WriteOp.put 7 ⟨100, 7⟩ none, WriteOp.setCurrent 9]
       bAt5).current_ ≤ 9) := by
  have h := current_monotone_amended stW 0 7 1 3 3 9 0 9 2 ⟨100, 7⟩ none bAt5
    [WriteOp.put 7 ⟨100, 7⟩ none, WriteOp.setCurrent 9] 9
  have hseq := h.2.2.2.2.2.2 (by decide) (by decide)
  exact ⟨⟨by decide, by decide, by decide⟩,
    h.1, h.2.1, h.2.2.1 (by decide), h.2.2.2.1, hseq.1, hseq.2⟩

/-- C4 counterexample: on a freshly reset series (`current_` at the sentinel
`0`), `get(0, 5)` issues a Block Store fetch for bucket `0`, which is not
strictly below `current_bucket = 0` — refuting "every fetch issued is for a
bucket `b` with `current_bucket - n <= b < current_bucket`" at this input. -/
theorem get_fetches_at_sentinel :
    (Get stW 0 5 bSent).fetched = [0] ∧
    ¬ (∀ j ∈ (Get stW 0 5 bSent).fetched, j < bSent.current_) := by
  have h : (Get stW 0 5 bSent).fetched = [0] := by
    rw [Get_eq]
    simp [clampBegin, clampEnd, bSent, Reset, stW, NewBucketedTimeSeries]
  refine ⟨h, ?_⟩
  rw [h]
  decide

/-- C4 amended: once `current_bucket >= 1`, every Block Store fetch issued
by `get` is for a bucket `j` with `current_bucket - n <= j < current_bucket`
(truncated subtraction); while `current_bucket` is the sentinel `0` the only
bucket that can be fetched is `0` itself; and a range entirely in the future
(`begin > current_bucket`) returns an empty result with no fetch issued. -/
theorem get_range_clamped (storage : BucketStorage) (begin_ end_ : Nat)
    (b : BucketedTimeSeries) :
    (1 ≤ b.current_ →
      ∀ j ∈ (Get storage begin_ end_ b).fetched,
        b.current_ - storage.numBuckets ≤ j ∧ j < b.current_) ∧
    (b.current_ = 0 → ∀ j ∈ (Get storage begin_ end_ b).fetched, j = 0) ∧
    (b.current_ < begin_ →
      (Get storage begin_ end_ b).ret = .ok [] ∧
      (Get storage begin_ end_ b).fetched = []) := by
  have hf : (Get storage begin_ end_ b).fetched =
      List.range' (clampBegin storage b begin_)
        (clampEnd b end_ + 1 - clampBegin storage b begin_) := by
    rw [Get_eq]
  have hr : (Get storage begin_ end_ b).ret =
      .ok ((List.range' (clampBegin storage b begin_)
            (clampEnd b end_ + 1 - clampBegin storage b begin_)).filterMap
              (fetchBlock storage b) ++
          (if begin_ ≤ b.current_ ∧ b.current_ ≤ end_ then
            [⟨b.stream_.ReadData, b.count_⟩] else [])) := by
    rw [Get_eq]
  refine ⟨?_, ?_, ?_⟩
  · intro h1 j hj
    rw [hf, List.mem_range'_1] at hj
    have hb : b.current_ - storage.numBuckets ≤ clampBegin storage b begin_ := by
      unfold clampBegin
      split <;> omega
    have he : clampEnd b end_ ≤ b.current_ - 1 := by
      unfold clampEnd
      split <;> omega
    omega
  · intro h0 j hj
    rw [hf, List.mem_range'_1] at hj
    have he : clampEnd b end_ = 0 := by
      unfold clampEnd
      rw [h0]
      simp
    omega
  · intro hlt
    have hz : clampEnd b end_ + 1 - clampBegin storage b begin_ = 0 := by
      unfold clampEnd clampBegin
      split <;> split <;> omega
    have hnc : ¬ (begin_ ≤ b.current_ ∧ b.current_ ≤ end_) := by omega
    rw [hr, hf, hz]
    simp [hnc]

/-- Witness for `get_range_clamped`: the three cases at concrete inputs
(current bucket 5 with range `[0, 9]`; the sentinel state with range
`[0, 5]`; and the all-future range `[9, 12]` against current bucket 5). -/
theorem get_range_clamped_witness :
    (1 ≤ bAt5.current_ ∧ bSent.current_ = 0 ∧ bAt5.current_ < 9) ∧
    (∀ j ∈ (Get stW 0 9 bAt5).fetched,
      bAt5.current_ - stW.numBuckets ≤ j ∧ j < bAt5.current_) ∧
    (∀ j ∈ (Get stW 0 5 bSent).fetched, j = 0) ∧
    ((Get stW 9 12 bAt5).ret = .ok [] ∧ (Get stW 9 12 bAt5).fetched = []) :=
  ⟨⟨by decide, by decide, by decide⟩,
   (get_range_clamped stW 0 9 bAt5).1 (by decide),
   (get_range_clamped stW 0 5 bSent).2.1 (by decide),
   (get_range_clamped stW 9 12 bAt5).2.2 (by decide)⟩

/-- C5: `get` never returns an error.  Its returned value is exactly the
blocks successfully fetched for the (strictly increasing) fetched bucket
numbers — a per-bucket fetch failure contributes nothing — followed by one
extra element with the active stream's raw bytes and `active_count` if and
only if `begin <= current_bucket <= end` holds for the original, unclamped
arguments. -/
theorem get_total_result (storage : BucketStorage) (begin_ end_ : Nat)
    (b : BucketedTimeSeries) :
    (Get storage begin_ end_ b).ret =
      .ok ((Get storage begin_ end_ b).fetched.filterMap
            (fetchBlock storage b) ++
          (if begin_ ≤ b.current_ ∧ b.current_ ≤ end_ then
            [⟨b.stream_.ReadData, b.count_⟩] else [])) ∧
    (Get storage begin_ end_ b).fetched.Pairwise (· < ·) := by
  rw [Get_eq]
  exact ⟨rfl, List.pairwise_lt_range' _ _⟩

/-- C6: the recency counter is saturating, not wrapping.  `Reset`
initializes it to the `uint8` maximum 255 (also the value
`GetQueriedBucketsAgo` then reports, meaning "never queried");
`SetQueried` always sets it to 0; and `k` rotation steps (with a Block
Store whose stores succeed) move it from `v` to `min (v + k) 255`. -/
theorem recency_saturating (storage : BucketStorage) (tsid k n : Nat)
    (b b0 : BucketedTimeSeries) :
    (Reset n b0).queriedBucketsAgo_ = 255 ∧
    GetQueriedBucketsAgo (Reset n b0) = 255 ∧
    (SetQueried b).queriedBucketsAgo_ = 0 ∧
    (0 < b.current_ → b.queriedBucketsAgo_ ≤ 255 →
      (∀ c d cnt t, ∃ id, storage.store c d cnt t = .ok id) →
      (openBucket storage (b.current_ + k) tsid b).ret = .ok () ∧
      (openBucket storage (b.current_ + k) tsid b).state.queriedBucketsAgo_ =
        min (b.queriedBucketsAgo_ + k) 255) := by
  refine ⟨rfl, rfl, rfl, ?_⟩
  intro h0 hq hst
  rw [openBucket_ne_zero storage _ tsid b (by omega)]
  exact openLoop_queried storage tsid hst k b hq

/-- Witness for `recency_saturating`: four rotations from recency 3 with an
always-succeeding store give recency `min (3 + 4) 255 = 7`. -/
theorem recency_saturating_witness :
    (0 < bAt2cnt1.current_ ∧ bAt2cnt1.queriedBucketsAgo_ ≤ 255) ∧
    ((openBucket stW (bAt2cnt1.current_ + 4) 1 bAt2cnt1).ret = .ok () ∧
     (openBucket stW (bAt2cnt1.current_ + 4) 1
        bAt2cnt1).state.queriedBucketsAgo_ =
       min (bAt2cnt1.queriedBucketsAgo_ + 4) 255) :=
  ⟨⟨by decide, by decide⟩,
   (recency_saturating stW 1 4 3 bAt2cnt1 NewBucketedTimeSeries).2.2.2
     (by decide) (by decide) (fun _ _ _ _ => ⟨42, rfl⟩)⟩

/-- C8 counterexample: a `get` on a series whose recency counter is 5 leaves
the counter at 5, not 0 — `Get` never writes `queriedBucketsAgo_`; only
`SetQueried` resets it. -/
theorem get_leaves_recency :
    (Get stW 0 9 bAt5).state.queriedBucketsAgo_ = 5 ∧ (5 : Nat) ≠ 0 := by
  constructor
  · rw [Get_eq]
    rfl
  · decide

/-- C8 amended: `get` leaves the entire state — in particular the recency
counter — unchanged; the counter is reset to 0 by `SetQueried` (which the
code exposes as a separate operation), not by `get` itself. -/
theorem get_recency_unchanged (storage : BucketStorage) (begin_ end_ : Nat)
    (b : BucketedTimeSeries) :
    (Get storage begin_ end_ b).state = b ∧
    (SetQueried b).queriedBucketsAgo_ = 0 := by
  rw [Get_eq]
  exact ⟨rfl, rfl⟩

/-- C9: on a freshly reset series (`current_` at the sentinel 0), a `put`
for bucket 0 succeeds, buffers the point in the active stream, and sets
`active_count` to 1 while `current_` stays 0; a later `set_current_bucket`
or `put` targeting `i > 0` jumps `current_` directly to `i` with no Block
Store call and without resetting the stream or count, so the point buffered
under the sentinel stays in place and is from then on attributed to bucket
`i`. -/
theorem sentinel_buffer_carryover (storage : BucketStorage) (minDelta : Int)
    (n tsid i : Nat) (dp dp2 : DataPoint) (cat cat2 : Option Nat)
    (b0 : BucketedTimeSeries) (hi : 0 < i)
    (hd : minDelta ≤ dp2.timestamp - dp.timestamp) :
    (Put storage minDelta 0 tsid dp cat (Reset n b0)).ret = .ok () ∧
    (Put storage minDelta 0 tsid dp cat
      (Reset n b0)).state.stream_.data = [dp] ∧
    (Put storage minDelta 0 tsid dp cat (Reset n b0)).state.count_ = 1 ∧
    (Put storage minDelta 0 tsid dp cat (Reset n b0)).state.current_ = 0 ∧
    (Put storage minDelta 0 tsid dp cat (Reset n b0)).calls = [] ∧
    SetCurrentBucket storage i tsid
        (Put storage minDelta 0 tsid dp cat (Reset n b0)).state =
      ⟨.ok (),
       { (Put storage minDelta 0 tsid dp cat (Reset n b0)).state with
           current_ := i },
       []⟩ ∧
    (Put storage minDelta i tsid dp2 cat2
      (Put storage minDelta 0 tsid dp cat (Reset n b0)).state).ret = .ok () ∧
    (Put storage minDelta i tsid dp2 cat2
      (Put storage minDelta 0 tsid dp cat
        (Reset n b0)).state).state.current_ = i ∧
    (Put storage minDelta i tsid dp2 cat2
      (Put storage minDelta 0 tsid dp cat
        (Reset n b0)).state).state.stream_.data = [dp, dp2] ∧
    (Put storage minDelta i tsid dp2 cat2
      (Put storage minDelta 0 tsid dp cat
        (Reset n b0)).state).state.count_ = 2 ∧
    (Put storage minDelta i tsid dp2 cat2
      (Put storage minDelta 0 tsid dp cat (Reset n b0)).state).calls = [] := by
  have h1 : Put storage minDelta 0 tsid dp cat (Reset n b0) =
      ⟨.ok (),
       ⟨⟨[dp], match cat with | some c => c | none => DEFAULT_CATEGORY⟩,
        1, 0, 255, List.replicate n INVALID_ID⟩,
       []⟩ := by
    unfold Put Reset
    cases cat <;> simp [Series.Append]
  rw [h1]
  have hnlt : ¬ dp2.timestamp - dp.timestamp < minDelta := not_lt.mpr hd
  refine ⟨rfl, rfl, rfl, rfl, rfl, ?_, ?_⟩
  · unfold SetCurrentBucket openBucket
    simp [hi]
  · unfold Put openBucket
    cases cat2 <;> simp [hi, Nat.not_lt_zero, Series.Append, hnlt]

/-- Witness for `sentinel_buffer_carryover`: a fresh series with capacity 3,
a first point at bucket 0, then a jump to bucket 7 with a second point. -/
theorem sentinel_buffer_carryover_witness :
    ((0 : Nat) < 7 ∧ (0 : Int) ≤ (200 : Int) - 100) ∧
    ((Put stW 0 0 1 ⟨100, 7⟩ none (Reset 3 NewBucketedTimeSeries)).ret =
      .ok () ∧
     (Put stW 0 0 1 ⟨100, 7⟩ none
       (Reset 3 NewBucketedTimeSeries)).state.stream_.data = [⟨100, 7⟩] ∧
     (Put stW 0 7 1 ⟨200, 9⟩ none
       (Put stW 0 0 1 ⟨100, 7⟩ none
         (Reset 3 NewBucketedTimeSeries)).state).state.current_ = 7 ∧
     (Put stW 0 7 1 ⟨200, 9⟩ none
       (Put stW 0 0 1 ⟨100, 7⟩ none
         (Reset 3 NewBucketedTimeSeries)).state).state.stream_.data =
       [⟨100, 7⟩, ⟨200, 9⟩] ∧
     (Put stW 0 7 1 ⟨200, 9⟩ none
       (Put stW 0 0 1 ⟨100, 7⟩ none
         (Reset 3 NewBucketedTimeSeries)).state).calls = []) := by
  have h := sentinel_buffer_carryover stW 0 3 1 7 ⟨100, 7⟩ ⟨200, 9⟩ none none
    NewBucketedTimeSeries (by decide) (by decide)
  exact ⟨⟨by decide, by decide⟩,
    h.1, h.2.1, h.2.2.2.2.2.2.2.1, h.2.2.2.2.2.2.2.2.1, h.2.2.2.2.2.2.2.2.2.2⟩

end Tsdb
